import Mathlib

/-!
Verification of the rugplaylite backend gateway (`src/server/server.js`).

The file shallowly embeds the request-proxy-and-subprocess-orchestration
layer of the server: credential-mode selection (`getAuthHeaders`), outbound
URL construction for the proxy endpoints (`marketDataUrl`, `coinInfoUrl`,
`coinHoldersUrl`), upstream error translation (`handleApiRequest`), and the
graph-subprocess exit handler (`graphCloseHandler`).

JavaScript query-parameter values are either absent (`undefined`) or strings;
they are embedded as `Option String`.  Values placed in a parameter object
may also be numbers, so parameter objects map names to `JsVal`.  String
coercion of `undefined` (as performed by template literals and by
`URLSearchParams`) yields the literal text `"undefined"`, which is the
behaviour modelled by `optToJsString` / `JsVal.toJsString`.
-/

/-- A JavaScript value appearing in a query-parameter object of the server:
`undefined`, a string, or a number (the server only ever stores integers). -/
inductive JsVal where
  | undef : JsVal
  | str : String → JsVal
  | num : Int → JsVal
deriving DecidableEq, Repr

/-- JavaScript `ToString` coercion as applied by template literals and by
`URLSearchParams` to the values above: `undefined` renders as the literal
text `"undefined"`, numbers render in decimal. -/
def JsVal.toJsString : JsVal → String
  | .undef => "undefined"
  | .str s => s
  | .num n => toString n

/-- JavaScript string coercion of a possibly-undefined string value
(`Option String`): `undefined` renders as `"undefined"`. -/
def optToJsString : Option String → String
  | none => "undefined"
  | some s => s

/-- Lift a possibly-undefined string into `JsVal` (property access on
`req.query` yields `undefined` or a string). -/
def optJs : Option String → JsVal
  | none => .undef
  | some s => .str s

/-- The inbound request's query dictionary (`req.query`): every parameter the
server ever reads, each possibly absent. -/
structure Req where
  apikey : Option String := none
  search : Option String := none
  sortBy : Option String := none
  sortOrder : Option String := none
  priceFilter : Option String := none
  changeFilter : Option String := none
  page : Option String := none
  limit : Option String := none
  symbol : Option String := none
  timeframe : Option String := none
deriving DecidableEq, Repr

/-! ### JavaScript `parseInt` and truthiness defaulting -/

/-- Numeric value of a decimal digit character, `none` otherwise. -/
def decDigitVal (c : Char) : Option Nat :=
  if '0' ≤ c ∧ c ≤ '9' then some (c.toNat - 48) else none

/-- Numeric value of a hexadecimal digit character, `none` otherwise. -/
def hexDigitVal (c : Char) : Option Nat :=
  if '0' ≤ c ∧ c ≤ '9' then some (c.toNat - 48)
  else if 'a' ≤ c ∧ c ≤ 'f' then some (c.toNat - 87)
  else if 'A' ≤ c ∧ c ≤ 'F' then some (c.toNat - 55)
  else none

/-- Accumulate the longest leading run of digits (per digit reader `f`, base
`base`) of a character list; `acc` is `none` while no digit has been seen.
Reading stops at the first non-digit, as JavaScript `parseInt` does. -/
def parseDigits (f : Char → Option Nat) (base : Nat) : List Char → Option Nat → Option Nat
  | [], acc => acc
  | c :: cs, acc =>
    match f c with
    | some d => parseDigits f base cs (some ((acc.getD 0) * base + d))
    | none => acc

/-- JavaScript `parseInt(x)` applied to a possibly-undefined query value:
the value is first string-coerced (`undefined` → `"undefined"`), leading
whitespace and an optional sign are consumed, a `0x`/`0X` prefix selects
hexadecimal, and the longest leading digit run is parsed; no digits give
`NaN`, embedded as `none`. -/
def parseIntJs (v : Option String) : Option Int :=
  let cs := (optToJsString v).data.dropWhile (fun c => c.isWhitespace)
  let signed : Int × List Char :=
    match cs with
    | '-' :: rest => (-1, rest)
    | '+' :: rest => (1, rest)
    | _ => (1, cs)
  match signed.2 with
  | '0' :: 'x' :: rest => (parseDigits hexDigitVal 16 rest none).map (fun n => signed.1 * n)
  | '0' :: 'X' :: rest => (parseDigits hexDigitVal 16 rest none).map (fun n => signed.1 * n)
  | _ => (parseDigits decDigitVal 10 signed.2 none).map (fun n => signed.1 * n)

/-- JavaScript `x || d` where `x` is the result of `parseInt`: `NaN` (`none`)
and `0` are falsy, so both fall back to the default `d`. -/
def jsOrInt (v : Option Int) (d : Int) : Int :=
  match v with
  | none => d
  | some n => if n = 0 then d else n

/-- JavaScript `x || d` where `x` is a possibly-undefined string: `undefined`
and the empty string are falsy, so both fall back to the default `d`. -/
def jsOrStr (v : Option String) (d : String) : String :=
  match v with
  | none => d
  | some s => if s = "" then d else s

/-! ### `URLSearchParams` serialization (application/x-www-form-urlencoded) -/

/-- Characters that `URLSearchParams` leaves unescaped: ASCII alphanumerics
and `*`, `-`, `.`, `_`. -/
def formSafe (c : Char) : Bool :=
  (c.isAlpha && c.toNat < 128) || c.isDigit || c = '*' || c = '-' || c = '.' || c = '_'

/-- The UTF-8 bytes of the code point `n`. -/
def utf8BytesNat (n : Nat) : List Nat :=
  if n < 0x80 then [n]
  else if n < 0x800 then [0xC0 + n / 64, 0x80 + n % 64]
  else if n < 0x10000 then [0xE0 + n / 4096, 0x80 + (n / 64) % 64, 0x80 + n % 64]
  else [0xF0 + n / 0x40000, 0x80 + (n / 4096) % 64, 0x80 + (n / 64) % 64, 0x80 + n % 64]

/-- Uppercase hexadecimal digit character for `n < 16`. -/
def hexDigit (n : Nat) : Char :=
  if n < 10 then Char.ofNat (48 + n) else Char.ofNat (55 + n)

/-- Percent-escape of one byte: `%` followed by two uppercase hex digits. -/
def pctByte (b : Nat) : List Char :=
  ['%', hexDigit (b / 16), hexDigit (b % 16)]

/-- Form-urlencoding of one character: safe characters pass through, space
becomes `+`, everything else is percent-escaped byte by byte. -/
def formEncodeChar (c : Char) : List Char :=
  if formSafe c then [c]
  else if c = ' ' then ['+']
  else ((utf8BytesNat c.toNat).map pctByte).flatten

/-- Form-urlencoding of a character list. -/
def formEncodeChars : List Char → List Char
  | [] => []
  | c :: cs => formEncodeChar c ++ formEncodeChars cs

/-- Form-urlencoding of a string, as `URLSearchParams` applies to each name
and value. -/
def formEncode (s : String) : String :=
  ⟨formEncodeChars s.data⟩

/-- One `name=value` unit of a `URLSearchParams` serialization; the value is
string-coerced first (so `undefined` becomes the text `"undefined"`). -/
def serializePair (p : String × JsVal) : String :=
  formEncode p.1 ++ "=" ++ formEncode p.2.toJsString

/-- `new URLSearchParams(obj).toString()`: the `name=value` units joined
with `&`, in object-key insertion order. -/
def serializeParams : List (String × JsVal) → String
  | [] => ""
  | [p] => serializePair p
  | p :: q :: ps => serializePair p ++ "&" ++ serializeParams (q :: ps)

/-- `url.search = params.toString()` followed by reading `url.href`: a
non-empty serialization is appended after `?`; an empty one leaves the base
URL unchanged. -/
def setSearch (base : String) (params : List (String × JsVal)) : String :=
  let s := serializeParams params
  if s = "" then base else base ++ "?" ++ s

/-! ### Credential resolver (`getAuthHeaders`, server.js lines 47–65) -/

/-- `getAuthHeaders(req)`: in run mode `"local"` the bearer token is the
process-configured `API_KEY`; in any other run mode it is the request's
`apikey` query parameter.  Non-local mode appends the browser-emulation
headers, in object insertion order. -/
def getAuthHeaders (runMode : String) (apiKeyEnv : Option String) (req : Req) :
    List (String × String) :=
  let authToken : Option String := if runMode = "local" then apiKeyEnv else req.apikey
  let headers : List (String × String) :=
    [("Authorization", "Bearer " ++ optToJsString authToken),
     ("Content-Type", "application/json")]
  if runMode ≠ "local" then
    headers ++
      [("User-Agent", "Mozilla/5.0 (Windows NT 10.0; Win64; x64) AppleWebKit/537.36 (KHTML, like Gecko) Chrome/58.0.3029.110 Safari/537.3"),
       ("Accept", "application/json, text/plain, */*"),
       ("Accept-Language", "en-US,en;q=0.9"),
       ("Accept-Encoding", "gzip, deflate, br"),
       ("Connection", "keep-alive"),
       ("Pragma", "no-cache"),
       ("Cache-Control", "no-cache")]
  else
    headers

/-! ### Upstream client and error translation (`handleApiRequest`) -/

/-- A JSON value, used for response bodies. -/
inductive Json where
  | null : Json
  | bool : Bool → Json
  | num : Int → Json
  | str : String → Json
  | arr : List Json → Json
  | obj : List (String × Json) → Json

/-- An HTTP response sent back to the caller: status code and JSON body
(`res.status(...).json(...)`; `res.json(...)` alone has status 200). -/
structure HttpResponse where
  status : Nat
  body : Json

/-- The outcome of the outbound `fetch`: upstream status, the body read as
text, and — when the body is read as JSON instead — the parse result
(`none` embeds a `response.json()` exception). -/
structure UpstreamResponse where
  status : Nat
  bodyText : String
  bodyJson : Option Json

/-- `response.ok`: status in the range 200–299. -/
def respOk (status : Nat) : Bool :=
  200 ≤ status && status < 300

/-- `handleApiRequest` (server.js lines 70–97): a non-ok upstream status is
mirrored with body `{error, details: <upstream body text>}`; an ok status
forwards the parsed JSON, and a `response.json()` failure falls into the
catch-all 500. -/
def handleApiRequest (resp : UpstreamResponse) : HttpResponse :=
  if respOk resp.status then
    match resp.bodyJson with
    | some data => { status := 200, body := data }
    | none => { status := 500, body := .obj [("error", .str "Internal server error.")] }
  else
    { status := resp.status,
      body := .obj [("error", .str "Failed to fetch data from external API."),
                    ("details", .str resp.bodyText)] }

/-! ### Proxy endpoint URL construction -/

/-- The parameter object built by `GET /api/market-data` (server.js lines
111–119): the five string filters are forwarded as-is (possibly
`undefined`), `page` and `limit` are `parseInt(...) || default`. -/
def marketDataParams (req : Req) : List (String × JsVal) :=
  [("search", optJs req.search),
   ("sortBy", optJs req.sortBy),
   ("sortOrder", optJs req.sortOrder),
   ("priceFilter", optJs req.priceFilter),
   ("changeFilter", optJs req.changeFilter),
   ("page", .num (jsOrInt (parseIntJs req.page) 1)),
   ("limit", .num (jsOrInt (parseIntJs req.limit) 12))]

/-- The upstream URL fetched by `GET /api/market-data`. -/
def marketDataUrl (req : Req) : String :=
  setSearch "https://rugplay.com/api/v1/market" (marketDataParams req)

/-- The parameter object built by `GET /api/coin-info`:
`timeframe: req.query.timeframe || '1m'`. -/
def coinInfoParams (req : Req) : List (String × JsVal) :=
  [("timeframe", .str (jsOrStr req.timeframe "1m"))]

/-- The upstream URL fetched by `GET /api/coin-info`: the symbol is spliced
into the path by a template literal (so an absent symbol renders as the
text `undefined`). -/
def coinInfoUrl (req : Req) : String :=
  setSearch ("https://rugplay.com/api/v1/coin/" ++ optToJsString req.symbol)
    (coinInfoParams req)

/-- The parameter object built by `GET /api/coin-holders`:
`limit: req.query.limit || 50` (a truthy string is kept as a string, the
fallback is the number 50). -/
def coinHoldersParams (req : Req) : List (String × JsVal) :=
  [("limit", match req.limit with
             | some s => if s = "" then .num 50 else .str s
             | none => .num 50)]

/-- The upstream URL fetched by `GET /api/coin-holders`. -/
def coinHoldersUrl (req : Req) : String :=
  setSearch ("https://rugplay.com/api/v1/holders/" ++ optToJsString req.symbol)
    (coinHoldersParams req)

/-! ### Render orchestrator exit handling (`POST /api/graph`) -/

/-- The subprocess `close` handler (server.js lines 168–182).  `parseJson`
stands for `JSON.parse`, with a parse exception embedded as `none`; `code`
is the subprocess exit code and `output` the accumulated stdout. -/
def graphCloseHandler (parseJson : String → Option Json) (code : Int) (output : String) :
    HttpResponse :=
  if code = 0 then
    match parseJson output with
    | some graphData =>
        { status := 200, body := .obj [("success", .bool true), ("graphData", graphData)] }
    | none =>
        { status := 500,
          body := .obj [("success", .bool false), ("error", .str "Failed to process graph data")] }
  else
    { status := 500,
      body := .obj [("success", .bool false), ("error", .str "Graph generation failed")] }

/-! ### Helper lemmas about the form-urlencoding -/

/-- A character that may appear in a correctly form-urlencoded query string:
an unescaped safe character, the space escape `+`, the escape lead `%` (whose
two following hex digits are themselves safe characters), or the structural
separators `=` and `&`. -/
def allowedQueryChar (c : Char) : Bool :=
  formSafe c || c == '+' || c == '%' || c == '=' || c == '&'

theorem char_toNat_lt (c : Char) : c.toNat < 1114112 := by
  rcases c.valid with h | ⟨_, h⟩
  · exact Nat.lt_trans h (by norm_num)
  · exact h

theorem utf8BytesNat_lt {n : Nat} (hn : n < 1114112) :
    ∀ b ∈ utf8BytesNat n, b < 256 := by
  intro b hb
  unfold utf8BytesNat at hb
  split_ifs at hb <;> simp at hb <;> omega

theorem hexDigit_safe : ∀ k, k < 16 → formSafe (hexDigit k) = true := by decide

theorem pctByte_allowed {b : Nat} (hb : b < 256) :
    ∀ x ∈ pctByte b, allowedQueryChar x = true := by
  intro x hx
  simp [pctByte] at hx
  rcases hx with rfl | rfl | rfl
  · decide
  · simp [allowedQueryChar, hexDigit_safe (b / 16) (by omega)]
  · simp [allowedQueryChar, hexDigit_safe (b % 16) (by omega)]

theorem formEncodeChar_allowed (c : Char) :
    ∀ x ∈ formEncodeChar c, allowedQueryChar x = true := by
  intro x hx
  unfold formEncodeChar at hx
  split_ifs at hx with h1 h2
  · simp at hx
    subst hx
    simp [allowedQueryChar, h1]
  · simp at hx
    subst hx
    decide
  · simp [List.mem_flatten, List.mem_map] at hx
    obtain ⟨b, hb, hxb⟩ := hx
    exact pctByte_allowed (utf8BytesNat_lt (char_toNat_lt c) b hb) x hxb

theorem formEncodeChars_allowed (cs : List Char) :
    ∀ x ∈ formEncodeChars cs, allowedQueryChar x = true := by
  induction cs with
  | nil => intro x hx; simp [formEncodeChars] at hx
  | cons c cs ih =>
    intro x hx
    simp only [formEncodeChars, List.mem_append] at hx
    rcases hx with hx | hx
    · exact formEncodeChar_allowed c x hx
    · exact ih x hx

theorem formEncode_allowed (s : String) :
    ∀ x ∈ (formEncode s).data, allowedQueryChar x = true :=
  formEncodeChars_allowed s.data

theorem serializePair_allowed (p : String × JsVal) :
    ∀ x ∈ (serializePair p).data, allowedQueryChar x = true := by
  intro x hx
  simp only [serializePair, String.data_append, List.mem_append] at hx
  rcases hx with (hx | hx) | hx
  · exact formEncode_allowed _ x hx
  · simp at hx; subst hx; decide
  · exact formEncode_allowed _ x hx

theorem serializeParams_allowed (ps : List (String × JsVal)) :
    ∀ x ∈ (serializeParams ps).data, allowedQueryChar x = true := by
  induction ps with
  | nil => intro x hx; simp [serializeParams] at hx
  | cons p ps ih =>
    intro x hx
    cases ps with
    | nil => exact serializePair_allowed p x hx
    | cons q qs =>
      simp only [serializeParams, String.data_append, List.mem_append] at hx
      rcases hx with (hx | hx) | hx
      · exact serializePair_allowed p x hx
      · simp at hx; subst hx; decide
      · exact ih x hx

theorem serializePair_ne (p : String × JsVal) : serializePair p ≠ "" := by
  intro h
  have hl := congrArg String.length h
  have h1 : ("=" : String).length = 1 := rfl
  simp [serializePair, String.length_append] at hl
  omega

theorem serializeParams_cons_ne (p : String × JsVal) (ps : List (String × JsVal)) :
    serializeParams (p :: ps) ≠ "" := by
  cases ps with
  | nil => exact serializePair_ne p
  | cons q qs =>
    intro h
    have hl := congrArg String.length h
    have h1 : ("&" : String).length = 1 := rfl
    simp [serializeParams, String.length_append] at hl
    omega

theorem setSearch_cons (base : String) (p : String × JsVal) (ps : List (String × JsVal)) :
    setSearch base (p :: ps) = base ++ "?" ++ serializeParams (p :: ps) := by
  simp only [setSearch]
  rw [if_neg (serializeParams_cons_ne p ps)]

/-! ### Claim theorems -/

/-- C1, counterexample: with every forwarded parameter absent from the
inbound query, the upstream URL of `GET /api/market-data` still contains a
key for each of them — `URLSearchParams` renders the `undefined` values as
the text `undefined` — so absent parameters are not omitted as claimed. -/
theorem c1_counterexample :
    marketDataUrl {} =
      "https://rugplay.com/api/v1/market?search=undefined&sortBy=undefined&sortOrder=undefined&priceFilter=undefined&changeFilter=undefined&page=1&limit=12"
    ∧ "search" ∈ (marketDataParams {}).map Prod.fst := by
  exact ⟨rfl, by decide⟩

/-- C1 (amended): for every `GET /api/market-data` request, a forwarded
string parameter (search, sortBy, sortOrder, priceFilter, changeFilter) that
is absent from the inbound query is still present in the upstream parameter
mapping, carrying the literal string value `undefined`. -/
theorem c1_absent_params_forwarded_as_undefined (req : Req) :
    (req.search = none →
      ((marketDataParams req).lookup "search").map JsVal.toJsString = some "undefined")
  ∧ (req.sortBy = none →
      ((marketDataParams req).lookup "sortBy").map JsVal.toJsString = some "undefined")
  ∧ (req.sortOrder = none →
      ((marketDataParams req).lookup "sortOrder").map JsVal.toJsString = some "undefined")
  ∧ (req.priceFilter = none →
      ((marketDataParams req).lookup "priceFilter").map JsVal.toJsString = some "undefined")
  ∧ (req.changeFilter = none →
      ((marketDataParams req).lookup "changeFilter").map JsVal.toJsString = some "undefined") := by
  refine ⟨fun h => ?_, fun h => ?_, fun h => ?_, fun h => ?_, fun h => ?_⟩ <;>
    (simp only [marketDataParams]; rw [h]; rfl)

/-- C1, witness for the amended statement at the all-absent request. -/
theorem c1_witness :
    ((marketDataParams {}).lookup "search").map JsVal.toJsString = some "undefined"
    ∧ ((marketDataParams {}).lookup "sortBy").map JsVal.toJsString = some "undefined"
    ∧ ((marketDataParams {}).lookup "sortOrder").map JsVal.toJsString = some "undefined"
    ∧ ((marketDataParams {}).lookup "priceFilter").map JsVal.toJsString = some "undefined"
    ∧ ((marketDataParams {}).lookup "changeFilter").map JsVal.toJsString = some "undefined" :=
  ⟨(c1_absent_params_forwarded_as_undefined {}).1 rfl,
   (c1_absent_params_forwarded_as_undefined {}).2.1 rfl,
   (c1_absent_params_forwarded_as_undefined {}).2.2.1 rfl,
   (c1_absent_params_forwarded_as_undefined {}).2.2.2.1 rfl,
   (c1_absent_params_forwarded_as_undefined {}).2.2.2.2 rfl⟩

/-- C2: in local run mode the outbound `Authorization` header is
`Bearer <process-configured secret>` and is independent of the request (in
particular of any `apikey` query parameter); in any non-local (deployed) run
mode it is `Bearer <apikey query parameter>`. -/
theorem c2_auth_header_by_mode (apiKeyEnv : Option String) (req : Req) :
    ((getAuthHeaders "local" apiKeyEnv req).lookup "Authorization" =
        some ("Bearer " ++ optToJsString apiKeyEnv)
      ∧ ∀ req2 : Req, (getAuthHeaders "local" apiKeyEnv req2).lookup "Authorization" =
          (getAuthHeaders "local" apiKeyEnv req).lookup "Authorization")
  ∧ ∀ mode : String, mode ≠ "local" →
      (getAuthHeaders mode apiKeyEnv req).lookup "Authorization" =
        some ("Bearer " ++ optToJsString req.apikey) := by
  refine ⟨⟨rfl, fun req2 => rfl⟩, fun mode hm => ?_⟩
  simp [getAuthHeaders, hm]

/-- C2, witness: concrete secret and caller key in each mode. -/
theorem c2_witness :
    (getAuthHeaders "local" (some "envsecret") {apikey := some "callerkey"}).lookup
        "Authorization" = some "Bearer envsecret"
    ∧ (getAuthHeaders "deployed" (some "envsecret") {apikey := some "callerkey"}).lookup
        "Authorization" = some "Bearer callerkey" :=
  ⟨(c2_auth_header_by_mode (some "envsecret") {apikey := some "callerkey"}).1.1,
   (c2_auth_header_by_mode (some "envsecret") {apikey := some "callerkey"}).2 "deployed"
     (by decide)⟩

/-- C3: whenever the upstream response is non-ok (status outside 200–299),
`handleApiRequest` mirrors the status and responds with exactly
`{error: "Failed to fetch data from external API.", details: <body text>}`. -/
theorem c3_upstream_error_mirrored (resp : UpstreamResponse)
    (h : respOk resp.status = false) :
    handleApiRequest resp =
      { status := resp.status,
        body := .obj [("error", .str "Failed to fetch data from external API."),
                      ("details", .str resp.bodyText)] } := by
  simp [handleApiRequest, h]

/-- C3, witness: upstream 404 with body `not found` yields status 404 with
details `not found`. -/
theorem c3_witness :
    handleApiRequest ⟨404, "not found", none⟩ =
      { status := 404,
        body := .obj [("error", .str "Failed to fetch data from external API."),
                      ("details", .str "not found")] } :=
  c3_upstream_error_mirrored ⟨404, "not found", none⟩ rfl

/-- C4: the graph subprocess close handler responds
`{success: true, graphData: v}` when the exit code is 0 and the output
parses as `v`; on a nonzero exit code it responds HTTP 500
`{success: false, error: "Graph generation failed"}` without consulting the
output or the parser; on exit 0 with unparseable output it responds HTTP 500
`{success: false, error: "Failed to process graph data"}`. -/
theorem c4_graph_close_handler_cases (parseJson : String → Option Json) (code : Int)
    (output : String) :
    (∀ v, code = 0 → parseJson output = some v →
      graphCloseHandler parseJson code output =
        { status := 200, body := .obj [("success", .bool true), ("graphData", v)] })
  ∧ (code ≠ 0 →
      graphCloseHandler parseJson code output =
        { status := 500,
          body := .obj [("success", .bool false), ("error", .str "Graph generation failed")] }
      ∧ ∀ (parseJson2 : String → Option Json) (output2 : String),
          graphCloseHandler parseJson2 code output2 =
            graphCloseHandler parseJson code output)
  ∧ (code = 0 → parseJson output = none →
      graphCloseHandler parseJson code output =
        { status := 500,
          body := .obj [("success", .bool false),
                        ("error", .str "Failed to process graph data")] }) := by
  refine ⟨fun v h0 hp => ?_, fun hne => ⟨?_, fun p2 o2 => ?_⟩, fun h0 hp => ?_⟩
  · subst h0; simp [graphCloseHandler, hp]
  · simp [graphCloseHandler, hne]
  · simp [graphCloseHandler, hne]
  · subst h0; simp [graphCloseHandler, hp]

/-- C4, witness: the three behaviours at concrete parsers, exit codes and
outputs. -/
theorem c4_witness :
    graphCloseHandler (fun _ => some (.obj [("a", .num 1)])) 0 "x" =
      { status := 200,
        body := .obj [("success", .bool true), ("graphData", .obj [("a", .num 1)])] }
    ∧ graphCloseHandler (fun _ => some (.obj [("a", .num 1)])) 1 "x" =
      { status := 500,
        body := .obj [("success", .bool false), ("error", .str "Graph generation failed")] }
    ∧ graphCloseHandler (fun _ => none) 0 "not-json" =
      { status := 500,
        body := .obj [("success", .bool false), ("error", .str "Failed to process graph data")] } :=
  ⟨(c4_graph_close_handler_cases (fun _ => some (.obj [("a", .num 1)])) 0 "x").1
      (.obj [("a", .num 1)]) rfl rfl,
   ((c4_graph_close_handler_cases (fun _ => some (.obj [("a", .num 1)])) 1 "x").2.1
      (by decide)).1,
   (c4_graph_close_handler_cases (fun _ => none) 0 "not-json").2.2 rfl rfl⟩

/-- A valid coin symbol: non-empty and ASCII alphanumeric (such symbols pass
through the URL path parser verbatim). -/
def validSymbol (s : String) : Bool :=
  !s.isEmpty && s.data.all (fun c => c.isAlphanum && c.toNat < 128)

/-- C5: for every valid symbol, `GET /api/coin-info` and
`GET /api/coin-holders` target URLs of the form
`{upstream}/v1/coin/{symbol}?{params}` and `{upstream}/v1/holders/{symbol}?{params}`
respectively, and every character of the serialized query is either an
unescaped form-safe character, a `+` or percent escape, or a `=`/`&`
separator — i.e. the parameters are correctly percent-encoded. -/
theorem c5_symbol_path_urls (req : Req) (sym : String)
    (hs : req.symbol = some sym) (_hv : validSymbol sym = true) :
    (coinInfoUrl req =
        "https://rugplay.com/api/v1/coin/" ++ sym ++ "?" ++
          serializeParams (coinInfoParams req)
      ∧ ∀ x ∈ (serializeParams (coinInfoParams req)).data, allowedQueryChar x = true)
  ∧ (coinHoldersUrl req =
        "https://rugplay.com/api/v1/holders/" ++ sym ++ "?" ++
          serializeParams (coinHoldersParams req)
      ∧ ∀ x ∈ (serializeParams (coinHoldersParams req)).data, allowedQueryChar x = true) := by
  refine ⟨⟨?_, serializeParams_allowed _⟩, ⟨?_, serializeParams_allowed _⟩⟩
  · rw [coinInfoUrl, hs]
    exact setSearch_cons _ _ _
  · rw [coinHoldersUrl, hs]
    exact setSearch_cons _ _ _

/-- C5, witness: the concrete URLs for symbol `BTC`. -/
theorem c5_witness :
    coinInfoUrl {symbol := some "BTC", timeframe := some "5m"} =
      "https://rugplay.com/api/v1/coin/BTC?timeframe=5m"
    ∧ coinHoldersUrl {symbol := some "BTC", limit := some "10"} =
      "https://rugplay.com/api/v1/holders/BTC?limit=10" :=
  ⟨((c5_symbol_path_urls {symbol := some "BTC", timeframe := some "5m"} "BTC" rfl
      (by decide)).1.1).trans rfl,
   ((c5_symbol_path_urls {symbol := some "BTC", limit := some "10"} "BTC" rfl
      (by decide)).2.1).trans rfl⟩

/-- C6, counterexample: in deployed (non-local) mode the credential resolver
also attaches a `Pragma: no-cache` header, which is outside the claim's
exhaustive list of `Authorization`, `Content-Type` and the six named
browser-emulation headers. -/
theorem c6_counterexample :
    ("Pragma", "no-cache") ∈ getAuthHeaders "deployed" none {}
    ∧ "Pragma" ∉ (["Authorization", "Content-Type", "User-Agent", "Accept",
        "Accept-Language", "Accept-Encoding", "Connection", "Cache-Control"] : List String) := by
  constructor
  · simp [getAuthHeaders]
  · decide

/-- C6 (amended): in deployed (non-local) mode the outbound header set is
exactly `Authorization`, `Content-Type`, and the seven browser-emulation
headers `User-Agent`, `Accept`, `Accept-Language`, `Accept-Encoding`,
`Connection`, `Pragma`, `Cache-Control`, in that order, and nothing else. -/
theorem c6_deployed_header_names (mode : String) (hm : mode ≠ "local")
    (apiKeyEnv : Option String) (req : Req) :
    (getAuthHeaders mode apiKeyEnv req).map Prod.fst =
      ["Authorization", "Content-Type", "User-Agent", "Accept", "Accept-Language",
       "Accept-Encoding", "Connection", "Pragma", "Cache-Control"] := by
  simp [getAuthHeaders, hm]

/-- C6, witness for the amended statement in the deployed run mode. -/
theorem c6_witness :
    (getAuthHeaders "deployed" none {apikey := some "k"}).map Prod.fst =
      ["Authorization", "Content-Type", "User-Agent", "Accept", "Accept-Language",
       "Accept-Encoding", "Connection", "Pragma", "Cache-Control"] :=
  c6_deployed_header_names "deployed" (by decide) none {apikey := some "k"}

/-- C7: `GET /api/market-data` with neither `page` nor `limit` forwards
`page=1` and `limit=12`; with `page=3` and `limit=5` it forwards exactly
`page=3` and `limit=5`. -/
theorem c7_page_limit_defaults (req : Req) :
    (req.page = none → req.limit = none →
      (marketDataParams req).lookup "page" = some (.num 1)
      ∧ (marketDataParams req).lookup "limit" = some (.num 12))
  ∧ (req.page = some "3" → req.limit = some "5" →
      (marketDataParams req).lookup "page" = some (.num 3)
      ∧ (marketDataParams req).lookup "limit" = some (.num 5)) := by
  refine ⟨fun hp hl => ⟨?_, ?_⟩, fun hp hl => ⟨?_, ?_⟩⟩ <;>
    (simp only [marketDataParams]; rw [hp, hl]; rfl)

/-- C7, witness at the two concrete requests of the claim. -/
theorem c7_witness :
    ((marketDataParams {}).lookup "page" = some (.num 1)
      ∧ (marketDataParams {}).lookup "limit" = some (.num 12))
    ∧ ((marketDataParams {page := some "3", limit := some "5"}).lookup "page" = some (.num 3)
      ∧ (marketDataParams {page := some "3", limit := some "5"}).lookup "limit" =
          some (.num 5)) :=
  ⟨(c7_page_limit_defaults {}).1 rfl rfl,
   (c7_page_limit_defaults {page := some "3", limit := some "5"}).2 rfl rfl⟩

/-- C8: in local run mode with no configured secret the credential resolver
still returns a full header set whose `Authorization` entry is formed from
the absent token (`Bearer undefined`); no failure path exists. -/
theorem c8_local_missing_secret_headers (req : Req) :
    getAuthHeaders "local" none req =
      [("Authorization", "Bearer undefined"), ("Content-Type", "application/json")] :=
  rfl

/-- C9: the forwarded `page` and `limit` of `GET /api/market-data` are the
JavaScript integer parses of the inbound strings; a parse yielding `NaN` or
`0` is silently replaced by the defaults 1 and 12 respectively, and any
nonzero parse is forwarded unchanged. -/
theorem c9_page_limit_parse_replacement (req : Req) :
    ((parseIntJs req.page = none ∨ parseIntJs req.page = some 0) →
      (marketDataParams req).lookup "page" = some (.num 1))
  ∧ (∀ n : Int, parseIntJs req.page = some n → n ≠ 0 →
      (marketDataParams req).lookup "page" = some (.num n))
  ∧ ((parseIntJs req.limit = none ∨ parseIntJs req.limit = some 0) →
      (marketDataParams req).lookup "limit" = some (.num 12))
  ∧ (∀ n : Int, parseIntJs req.limit = some n → n ≠ 0 →
      (marketDataParams req).lookup "limit" = some (.num n)) := by
  have hpage : (marketDataParams req).lookup "page" =
      some (.num (jsOrInt (parseIntJs req.page) 1)) := rfl
  have hlimit : (marketDataParams req).lookup "limit" =
      some (.num (jsOrInt (parseIntJs req.limit) 12)) := rfl
  refine ⟨fun h => ?_, fun n hn hne => ?_, fun h => ?_, fun n hn hne => ?_⟩
  · rcases h with h | h <;> rw [hpage, h] <;> rfl
  · rw [hpage, hn]; simp [jsOrInt, hne]
  · rcases h with h | h <;> rw [hlimit, h] <;> rfl
  · rw [hlimit, hn]; simp [jsOrInt, hne]

/-- C9, witness: `page=0` and a non-numeric `limit` are replaced by the
defaults; a nonzero numeric `page` is forwarded as parsed. -/
theorem c9_witness :
    (marketDataParams {page := some "0", limit := some "abc"}).lookup "page" = some (.num 1)
    ∧ (marketDataParams {page := some "0", limit := some "abc"}).lookup "limit" =
        some (.num 12)
    ∧ (marketDataParams {page := some "7"}).lookup "page" = some (.num 7) :=
  ⟨(c9_page_limit_parse_replacement {page := some "0", limit := some "abc"}).1 (Or.inr rfl),
   (c9_page_limit_parse_replacement {page := some "0", limit := some "abc"}).2.2.1 (Or.inl rfl),
   (c9_page_limit_parse_replacement {page := some "7"}).2.1 7 rfl (by decide)⟩

/-- C10: a `GET /api/coin-info` or `GET /api/coin-holders` request with no
`symbol` parameter triggers no local validation or error: the handlers still
build (and fetch) an upstream URL with the literal text `undefined` in the
symbol path segment. -/
theorem c10_missing_symbol_literal_undefined (req : Req) (h : req.symbol = none) :
    coinInfoUrl req =
      "https://rugplay.com/api/v1/coin/undefined" ++ "?" ++
        serializeParams (coinInfoParams req)
    ∧ coinHoldersUrl req =
      "https://rugplay.com/api/v1/holders/undefined" ++ "?" ++
        serializeParams (coinHoldersParams req) := by
  constructor
  · rw [coinInfoUrl, h]
    exact setSearch_cons _ _ _
  · rw [coinHoldersUrl, h]
    exact setSearch_cons _ _ _

/-- C10, witness: the concrete URLs at the empty request. -/
theorem c10_witness :
    coinInfoUrl {} = "https://rugplay.com/api/v1/coin/undefined?timeframe=1m"
    ∧ coinHoldersUrl {} = "https://rugplay.com/api/v1/holders/undefined?limit=50" :=
  ⟨((c10_missing_symbol_literal_undefined {} rfl).1).trans rfl,
   ((c10_missing_symbol_literal_undefined {} rfl).2).trans rfl⟩
